import Mathlib

/-!
Verification of the CloudComputing-A3 bank-statement pipeline
(`src/lambda/bankextract-package/lambda_function.py` and
`src/lambda/visualize-package/lambda_function.py`) against its
natural-language specification.

Python text is modelled as `List Char`.  External effects (S3 download,
pg8000 queries, the Bedrock model call, Textract) are passed in as explicit
parameters or `Except`-valued oracles so that each function's own control
flow is embedded faithfully.
-/

/-- Whitespace test used by Python `str.strip()` (the ASCII subset;
the pipeline never produces the exotic unicode whitespace characters). -/
def isPySpace (c : Char) : Bool :=
  c = ' ' || c = '\t' || c = '\n' || c = '\r' || c = '\x0b' || c = '\x0c'

/-- Python `str.strip()`: drop leading and trailing whitespace. -/
def pyStrip (l : List Char) : List Char :=
  ((l.dropWhile isPySpace).reverse.dropWhile isPySpace).reverse

/-- Index of the first occurrence of `c` (Python `str.find`, `none` for -1). -/
def findChar (c : Char) : List Char → Option Nat
  | [] => none
  | x :: xs => if x = c then some 0 else (findChar c xs).map (· + 1)

/-- Index of the last occurrence of `c` (Python `str.rfind`, `none` for -1). -/
def rfindChar (c : Char) : List Char → Option Nat
  | [] => none
  | x :: xs =>
    match rfindChar c xs with
    | some n => some (n + 1)
    | none => if x = c then some 0 else none

/-- Python `str.find`: -1 when absent. -/
def pyFind (c : Char) (l : List Char) : Int :=
  match findChar c l with
  | some n => (n : Int)
  | none => -1

/-- Python `str.rfind`: -1 when absent. -/
def pyRfind (c : Char) (l : List Char) : Int :=
  match rfindChar c l with
  | some n => (n : Int)
  | none => -1

/-- Python slice `s[a:b]` for non-negative bounds. -/
def pySlice (a b : Nat) (l : List Char) : List Char :=
  (l.take b).drop a

/-- Python `str.startswith` on char lists. -/
def startsWith : List Char → List Char → Bool
  | [], _ => true
  | _ :: _, [] => false
  | p :: ps, x :: xs => if p = x then startsWith ps xs else false

/-- Python `str.endswith` on char lists. -/
def endsWith (suf l : List Char) : Bool :=
  startsWith suf.reverse l.reverse

/-! ## Stage 1: the extraction cascade (`textract_from_s3`, lines 134-160) -/

/-- One run of `textract_from_s3`, instrumented with which extraction
strategies were invoked.  `plumberOut`, `pypdfOut`, `ocrOut` are the texts
the helpers `extract_with_pdfplumber` / `extract_with_pypdf` /
`extract_with_textract` would return (each already returns stripped text, or
`""` when its engine fails); `downloadOk` models whether
`s3_client.download_file` succeeds — an exception there reaches the
`except` clause that returns `""`. -/
structure ExtractTrace where
  result : List Char
  plumberInvoked : Bool
  pypdfInvoked : Bool
  ocrInvoked : Bool
deriving Repr, DecidableEq

/-- `textract_from_s3` (lines 134-160): the 0-byte / 20 MB size gate, then
the pdfplumber → pypdf → Textract cascade where each next strategy is tried
when the current text is empty or trims below 50 characters; finally
`return text if text else ""` (line 152). -/
def textract_from_s3 (downloadOk : Bool) (fileSize : Nat)
    (plumberOut pypdfOut ocrOut : List Char) : ExtractTrace :=
  if downloadOk = false then ⟨[], false, false, false⟩
  else if fileSize = 0 ∨ 20 * 1024 * 1024 < fileSize then
    if 0 < fileSize then ⟨ocrOut, false, false, true⟩ else ⟨[], false, false, false⟩
  else if plumberOut = [] ∨ (pyStrip plumberOut).length < 50 then
    if pypdfOut = [] ∨ (pyStrip pypdfOut).length < 50 then
      ⟨if ocrOut = [] then [] else ocrOut, true, true, true⟩
    else ⟨pypdfOut, true, true, false⟩
  else ⟨plumberOut, true, false, false⟩

/-- The extraction-failure test in `process_s3_upload` (line 343):
`if not extracted_text or len(extracted_text.strip()) < 10:` raises
"Could not extract text from PDF", which marks the statement FAILED. -/
def extraction_failed (t : List Char) : Bool :=
  t.isEmpty || decide ((pyStrip t).length < 10)

/-! ## Claims C2 and C5 -/

/-- C2 counterexample: for a 1000-byte document whose two local strategies
return nothing, the OCR strategy's 14-character output is accepted as the
final extraction result — nonempty yet far below 50 trimmed characters —
and the pipeline does not report extraction failure for it (its own check
only fires below 10 characters).  This refutes the claim that extraction
output is either empty or at least 50 trimmed characters. -/
theorem c2_counterexample :
    (textract_from_s3 true 1000 [] [] ("short ocr text".toList)).result
        = "short ocr text".toList
    ∧ (textract_from_s3 true 1000 [] [] ("short ocr text".toList)).result ≠ []
    ∧ (pyStrip ((textract_from_s3 true 1000 [] [] ("short ocr text".toList)).result)).length < 50
    ∧ extraction_failed ((textract_from_s3 true 1000 [] [] ("short ocr text".toList)).result)
        = false := by
  refine ⟨by decide, by decide, by decide, by decide⟩

/-- C2 amended: the cascade's final result is empty, or a local strategy's
output accepted at ≥ 50 trimmed characters, or the OCR output returned with
no length check at all; and the pipeline reports extraction failure exactly
for final texts that trim below 10 characters. -/
theorem c2_amended :
    (∀ (downloadOk : Bool) (fileSize : Nat) (p q o : List Char),
      (textract_from_s3 downloadOk fileSize p q o).result = []
      ∨ ((textract_from_s3 downloadOk fileSize p q o).result = p
          ∧ 50 ≤ (pyStrip p).length)
      ∨ ((textract_from_s3 downloadOk fileSize p q o).result = q
          ∧ 50 ≤ (pyStrip q).length)
      ∨ (textract_from_s3 downloadOk fileSize p q o).result = o)
    ∧ (∀ t : List Char, extraction_failed t = false ↔ 10 ≤ (pyStrip t).length) := by
  constructor
  · intro downloadOk fileSize p q o
    by_cases hdl : downloadOk = false
    · simp [textract_from_s3, hdl]
    · by_cases hsz : fileSize = 0 ∨ 20 * 1024 * 1024 < fileSize
      · by_cases hpos : 0 < fileSize
        · exact Or.inr (Or.inr (Or.inr (by simp [textract_from_s3, hdl, hsz, hpos])))
        · exact Or.inl (by simp [textract_from_s3, hdl, hsz, hpos])
      · by_cases hp : p = [] ∨ (pyStrip p).length < 50
        · by_cases hq : q = [] ∨ (pyStrip q).length < 50
          · by_cases ho : o = []
            · exact Or.inl (by simp [textract_from_s3, hdl, hsz, hp, hq, ho])
            · exact Or.inr (Or.inr (Or.inr
                (by simp [textract_from_s3, hdl, hsz, hp, hq, ho])))
          · refine Or.inr (Or.inr (Or.inl ⟨?_, ?_⟩))
            · simp [textract_from_s3, hdl, hsz, hp, hq]
            · push_neg at hq
              omega
        · refine Or.inr (Or.inl ⟨?_, ?_⟩)
          · simp [textract_from_s3, hdl, hsz, hp]
          · push_neg at hp
            omega
  · intro t
    unfold extraction_failed
    constructor
    · intro h
      simp only [Bool.or_eq_false_iff, decide_eq_false_iff_not] at h
      omega
    · intro h
      have ht : t ≠ [] := by
        intro he
        subst he
        simp [pyStrip] at h
      simp [List.isEmpty_iff, ht]
      omega

/-- C5: for a non-empty document of at most 20 MB, the OCR strategy is
invoked exactly when both local strategies trim below 50 characters, the
lenient pypdf strategy is invoked exactly when the layout-aware pdfplumber
output trims below 50 characters (so pdfplumber is tried first), and
pdfplumber is always invoked; for a document above 20 MB both local
strategies are skipped and the OCR output is returned directly. -/
theorem c5_ocr_only_after_local_failure (fileSize : Nat) (p q o : List Char) :
    (0 < fileSize → fileSize ≤ 20 * 1024 * 1024 →
      ((textract_from_s3 true fileSize p q o).ocrInvoked = true ↔
          (pyStrip p).length < 50 ∧ (pyStrip q).length < 50)
      ∧ ((textract_from_s3 true fileSize p q o).pypdfInvoked = true ↔
          (pyStrip p).length < 50)
      ∧ (textract_from_s3 true fileSize p q o).plumberInvoked = true)
    ∧ (20 * 1024 * 1024 < fileSize →
        textract_from_s3 true fileSize p q o = ⟨o, false, false, true⟩) := by
  have hstrip_nil : pyStrip ([] : List Char) = [] := rfl
  constructor
  · intro hpos hle
    have hsz : ¬(fileSize = 0 ∨ 20 * 1024 * 1024 < fileSize) := by omega
    have hp_iff : (p = [] ∨ (pyStrip p).length < 50) ↔ (pyStrip p).length < 50 := by
      constructor
      · rintro (h | h)
        · subst h; simp [hstrip_nil]
        · exact h
      · exact Or.inr
    have hq_iff : (q = [] ∨ (pyStrip q).length < 50) ↔ (pyStrip q).length < 50 := by
      constructor
      · rintro (h | h)
        · subst h; simp [hstrip_nil]
        · exact h
      · exact Or.inr
    by_cases hp : p = [] ∨ (pyStrip p).length < 50
    · by_cases hq : q = [] ∨ (pyStrip q).length < 50
      · simp only [textract_from_s3, hsz, hp, hq, if_true, if_neg hsz]
        simp only [Bool.true_eq_false, if_false]
        refine ⟨?_, ?_, trivial⟩
        · simp [hp_iff.mp hp, hq_iff.mp hq]
        · simp [hp_iff.mp hp]
      · simp only [textract_from_s3, hsz, hp, hq, if_true, if_neg hsz, if_neg hq]
        simp only [Bool.true_eq_false, if_false]
        refine ⟨?_, ?_, trivial⟩
        · rw [hq_iff] at hq
          simp [hq]
        · simp [hp_iff.mp hp]
    · simp only [textract_from_s3, hsz, if_neg hsz, if_neg hp]
      simp only [Bool.true_eq_false, if_false]
      rw [hp_iff] at hp
      refine ⟨?_, ?_, trivial⟩
      · simp [hp]
      · simp [hp]
  · intro hbig
    have hsz : fileSize = 0 ∨ 20 * 1024 * 1024 < fileSize := Or.inr hbig
    have hpos : 0 < fileSize := by omega
    simp [textract_from_s3, hsz, hpos]

/-- Witness for C5 at concrete inputs: with empty local outputs and a small
file the OCR stage runs, and a 30 MB file goes straight to OCR. -/
theorem c5_ocr_only_after_local_failure_witness :
    (textract_from_s3 true 1000 [] [] ("y".toList)).ocrInvoked = true
    ∧ textract_from_s3 true 30000000 [] [] ("y".toList)
        = ⟨"y".toList, false, false, true⟩ := by
  constructor
  · exact (((c5_ocr_only_after_local_failure 1000 [] [] ("y".toList)).1
      (by decide) (by decide)).1).mpr (by decide)
  · exact (c5_ocr_only_after_local_failure 30000000 [] [] ("y".toList)).2 (by decide)

/-! ## Stage 2 response repair (`banktract_from_text`, lines 221-235) -/

/-- Fence stripping in `banktract_from_text` (lines 221-226): drop a
leading "```json" (7 chars) or "```" (3 chars) marker, then a trailing
"```" marker. -/
def stripFences (l : List Char) : List Char :=
  let l1 :=
    if startsWith ("```json".toList) l then l.drop 7
    else if startsWith ("```".toList) l then l.drop 3
    else l
  if endsWith ("```".toList) l1 then l1.take (l1.length - 3) else l1

/-- JSON-candidate extraction (lines 228-235): `start_idx = find('{')`,
`end_idx = rfind('}') + 1`; when both differ from -1 the brace-delimited
slice is handed to `json.loads`, otherwise the whole cleaned text is. -/
def jsonCandidate (l : List Char) : List Char :=
  if pyFind '{' l ≠ -1 ∧ pyRfind '}' l + 1 ≠ -1 then
    pySlice (pyFind '{' l).toNat (pyRfind '}' l + 1).toNat l
  else l

/-- The full repair chain applied to the (already stripped) model text
before `json.loads`: fence stripping followed by brace slicing. -/
def repairCandidate (l : List Char) : List Char :=
  jsonCandidate (stripFences l)

/-- A text wrapped in a markdown code fence with the `json` language tag. -/
def fenceJson (s : List Char) : List Char :=
  "```json\n".toList ++ s ++ "\n```".toList

/-- A text wrapped in a plain markdown code fence. -/
def fencePlain (s : List Char) : List Char :=
  "```\n".toList ++ s ++ "\n```".toList

theorem startsWith_append_self (p rest : List Char) :
    startsWith p (p ++ rest) = true := by
  induction p with
  | nil => rfl
  | cons a as ih => simp [startsWith, ih]

theorem startsWith_false_of_head_ne (c : Char) (p l : List Char)
    (h : ∀ x, l.head? = some x → x ≠ c) : startsWith (c :: p) l = false := by
  cases l with
  | nil => rfl
  | cons x xs =>
    have hx : x ≠ c := h x rfl
    simp only [startsWith]
    rw [if_neg (Ne.symm hx)]

theorem take_append_self (a b : List Char) : (a ++ b).take a.length = a := by
  simp

theorem drop_append_self (a b : List Char) : (a ++ b).drop a.length = b := by
  simp

theorem findChar_append_of_not_mem (c : Char) (a b : List Char) (h : c ∉ a) :
    findChar c (a ++ b) = (findChar c b).map (· + a.length) := by
  induction a with
  | nil =>
    cases hf : findChar c b <;> simp [hf]
  | cons x xs ih =>
    have hx : x ≠ c := fun he => h (by simp [he])
    have hxs : c ∉ xs := fun hm => h (by simp [hm])
    rw [List.cons_append]
    simp only [findChar, if_neg hx, ih hxs]
    cases hf : findChar c b
    · simp
    · simp only [Option.map_some']
      simp only [Option.some.injEq, List.length_cons]
      omega

theorem rfindChar_eq_none_of_not_mem (c : Char) (l : List Char) (h : c ∉ l) :
    rfindChar c l = none := by
  induction l with
  | nil => rfl
  | cons x xs ih =>
    have hx : x ≠ c := fun he => h (by simp [he])
    have hxs : c ∉ xs := fun hm => h (by simp [hm])
    simp [rfindChar, ih hxs, hx]

theorem rfindChar_append_of_not_mem_right (c : Char) (a b : List Char)
    (h : c ∉ b) : rfindChar c (a ++ b) = rfindChar c a := by
  induction a with
  | nil => simp [rfindChar_eq_none_of_not_mem c b h, rfindChar]
  | cons x xs ih =>
    rw [List.cons_append]
    simp only [rfindChar, ih]

theorem rfindChar_append_snoc (c : Char) (a : List Char) :
    rfindChar c (a ++ [c]) = some a.length := by
  induction a with
  | nil => simp [rfindChar]
  | cons x xs ih =>
    rw [List.cons_append]
    simp [rfindChar, ih]

theorem jsonCandidate_core (w1 mid w2 : List Char)
    (h1 : '{' ∉ w1) (h2 : '}' ∉ w2) :
    jsonCandidate (w1 ++ ('{' :: mid ++ ['}']) ++ w2) = '{' :: mid ++ ['}'] := by
  have hfind : findChar '{' (w1 ++ ('{' :: mid ++ ['}']) ++ w2) = some w1.length := by
    rw [List.append_assoc, findChar_append_of_not_mem _ _ _ h1]
    simp [findChar]
  have hshape : w1 ++ ('{' :: mid ++ ['}']) = (w1 ++ ('{' :: mid)) ++ ['}'] := by
    simp
  have hrfind : rfindChar '}' (w1 ++ ('{' :: mid ++ ['}']) ++ w2)
      = some (w1.length + (mid.length + 1)) := by
    rw [rfindChar_append_of_not_mem_right _ _ _ h2, hshape, rfindChar_append_snoc]
    simp [List.length_append]
  unfold jsonCandidate
  simp only [pyFind, pyRfind, hfind, hrfind]
  rw [if_pos (by constructor <;> omega)]
  have e1 : ((w1.length : Int)).toNat = w1.length := by omega
  have e2 : (((w1.length + (mid.length + 1) : Nat) : Int) + 1).toNat
      = w1.length + (mid.length + 2) := by omega
  rw [e1, e2]
  unfold pySlice
  have e3 : w1.length + (mid.length + 2) = (w1 ++ ('{' :: mid ++ ['}'])).length := by
    simp
  rw [e3, take_append_self, drop_append_self]

theorem stripFences_fenceJson (s : List Char) :
    stripFences (fenceJson s) = '\n' :: (s ++ ['\n']) := by
  have hshape : fenceJson s = "```json".toList ++ ('\n' :: (s ++ "\n```".toList)) := rfl
  have hstart : startsWith ("```json".toList) (fenceJson s) = true := by
    rw [hshape]
    exact startsWith_append_self _ _
  have hdrop : (fenceJson s).drop 7 = '\n' :: (s ++ "\n```".toList) := by
    rw [hshape]
    have : ("```json".toList).length = 7 := rfl
    rw [← this, drop_append_self]
  have hrev : ('\n' :: (s ++ "\n```".toList)).reverse
      = ("```".toList).reverse ++ ('\n' :: (s.reverse ++ ['\n'])) := by
    have hB : ("\n```".toList).reverse = ['`', '`', '`', '\n'] := rfl
    simp [hB]
  have hend : endsWith ("```".toList) ('\n' :: (s ++ "\n```".toList)) = true := by
    unfold endsWith
    rw [hrev]
    exact startsWith_append_self _ _
  have htail : ('\n' :: (s ++ "\n```".toList)) = ('\n' :: (s ++ ['\n'])) ++ "```".toList := by
    simp
  have hlen : ('\n' :: (s ++ "\n```".toList)).length - 3 = ('\n' :: (s ++ ['\n'])).length := by
    simp
  unfold stripFences
  rw [hstart]
  simp only [if_true]
  rw [hdrop, hend]
  simp only [if_true]
  rw [hlen, htail, take_append_self]

theorem stripFences_fencePlain (s : List Char) :
    stripFences (fencePlain s) = '\n' :: (s ++ ['\n']) := by
  have hshape : fencePlain s = "```".toList ++ ('\n' :: (s ++ "\n```".toList)) := rfl
  have hstartJson : startsWith ("```json".toList) (fencePlain s) = false := by
    show startsWith ("```json".toList) ('`' :: '`' :: '`' :: '\n' :: (s ++ "\n```".toList)) = false
    simp [startsWith]
  have hstart : startsWith ("```".toList) (fencePlain s) = true := by
    rw [hshape]
    exact startsWith_append_self _ _
  have hdrop : (fencePlain s).drop 3 = '\n' :: (s ++ "\n```".toList) := by
    rw [hshape]
    have : ("```".toList).length = 3 := rfl
    rw [← this, drop_append_self]
  have hrev : ('\n' :: (s ++ "\n```".toList)).reverse
      = ("```".toList).reverse ++ ('\n' :: (s.reverse ++ ['\n'])) := by
    have hB : ("\n```".toList).reverse = ['`', '`', '`', '\n'] := rfl
    simp [hB]
  have hend : endsWith ("```".toList) ('\n' :: (s ++ "\n```".toList)) = true := by
    unfold endsWith
    rw [hrev]
    exact startsWith_append_self _ _
  have htail : ('\n' :: (s ++ "\n```".toList)) = ('\n' :: (s ++ ['\n'])) ++ "```".toList := by
    simp
  have hlen : ('\n' :: (s ++ "\n```".toList)).length - 3 = ('\n' :: (s ++ ['\n'])).length := by
    simp
  unfold stripFences
  rw [hstartJson]
  simp only [if_false, Bool.false_eq_true]
  rw [hstart]
  simp only [if_true]
  rw [hdrop, hend]
  simp only [if_true]
  rw [hlen, htail, take_append_self]

theorem stripFences_unfenced (w1 mid w2 : List Char)
    (hw1 : ∀ c ∈ w1, isPySpace c = true) (hw2 : ∀ c ∈ w2, isPySpace c = true) :
    stripFences (w1 ++ ('{' :: mid ++ ['}']) ++ w2)
      = w1 ++ ('{' :: mid ++ ['}']) ++ w2 := by
  have hhead : ∀ x, (w1 ++ ('{' :: mid ++ ['}']) ++ w2).head? = some x → x ≠ '`' := by
    intro x hx hxe
    subst hxe
    cases w1 with
    | nil =>
      have e : ((([] : List Char) ++ ('{' :: mid ++ ['}'])) ++ w2).head? = some '{' := rfl
      rw [e] at hx
      simp at hx
    | cons a t =>
      have e : (((a :: t) ++ ('{' :: mid ++ ['}'])) ++ w2).head? = some a := rfl
      rw [e] at hx
      have ha : a = '`' := by
        injection hx
      have hsp := hw1 a (by simp)
      rw [ha] at hsp
      exact absurd hsp (by decide)
  have hrevhead : ∀ x, (w1 ++ ('{' :: mid ++ ['}']) ++ w2).reverse.head? = some x → x ≠ '`' := by
    intro x hx hxe
    subst hxe
    rcases hw : w2.reverse with _ | ⟨b, bs⟩
    · have hw2nil : w2 = [] := by
        have := congrArg List.reverse hw
        simpa using this
      subst hw2nil
      have e : (w1 ++ ('{' :: mid ++ ['}']) ++ ([] : List Char)).reverse
          = '}' :: (mid.reverse ++ ['{'] ++ w1.reverse) := by
        simp
      rw [e] at hx
      simp at hx
    · have hb : b ∈ w2 := by
        have hm : b ∈ w2.reverse := by
          rw [hw]
          simp
        simpa using hm
      have e : (w1 ++ ('{' :: mid ++ ['}']) ++ w2).reverse
          = b :: (bs ++ (w1 ++ ('{' :: mid ++ ['}'])).reverse) := by
        rw [List.reverse_append, hw]
        rfl
      rw [e] at hx
      have hbx : b = '`' := by
        injection hx
      have hsp := hw2 b hb
      rw [hbx] at hsp
      exact absurd hsp (by decide)
  have hjson : startsWith ("```json".toList) (w1 ++ ('{' :: mid ++ ['}']) ++ w2) = false := by
    have h7 : "```json".toList = '`' :: "``json".toList := rfl
    rw [h7]
    exact startsWith_false_of_head_ne _ _ _ hhead
  have h3 : startsWith ("```".toList) (w1 ++ ('{' :: mid ++ ['}']) ++ w2) = false := by
    have h3e : "```".toList = '`' :: "``".toList := rfl
    rw [h3e]
    exact startsWith_false_of_head_ne _ _ _ hhead
  have hend : endsWith ("```".toList) (w1 ++ ('{' :: mid ++ ['}']) ++ w2) = false := by
    unfold endsWith
    have h3r : ("```".toList).reverse = '`' :: "``".toList := rfl
    rw [h3r]
    exact startsWith_false_of_head_ne _ _ _ hrevhead
  unfold stripFences
  simp only [hjson, h3, hend, Bool.false_eq_true, if_false]

/-- C4: repairing a model response that wraps a JSON object (arbitrary
whitespace, then a brace-delimited body, then whitespace) in a markdown code
fence — with or without the `json` language tag — hands `json.loads` exactly
the same byte sequence as repairing the unfenced response: both reduce to
the brace-delimited body, so the parsed results are identical. -/
theorem c4_fence_transparent (w1 mid w2 : List Char)
    (hw1 : ∀ c ∈ w1, isPySpace c = true) (hw2 : ∀ c ∈ w2, isPySpace c = true) :
    repairCandidate (fenceJson (w1 ++ ('{' :: mid ++ ['}']) ++ w2))
        = repairCandidate (w1 ++ ('{' :: mid ++ ['}']) ++ w2)
    ∧ repairCandidate (fencePlain (w1 ++ ('{' :: mid ++ ['}']) ++ w2))
        = repairCandidate (w1 ++ ('{' :: mid ++ ['}']) ++ w2)
    ∧ repairCandidate (w1 ++ ('{' :: mid ++ ['}']) ++ w2) = '{' :: mid ++ ['}'] := by
  have hw1' : '{' ∉ w1 := by
    intro hm
    have := hw1 '{' hm
    exact absurd this (by decide)
  have hw2' : '}' ∉ w2 := by
    intro hm
    have := hw2 '}' hm
    exact absurd this (by decide)
  have h1' : '{' ∉ ('\n' :: w1) := by
    intro hm
    rcases List.mem_cons.mp hm with h | h
    · exact absurd h (by decide)
    · exact hw1' h
  have h2' : '}' ∉ (w2 ++ ['\n']) := by
    intro hm
    rcases List.mem_append.mp hm with h | h
    · exact hw2' h
    · exact absurd h (by decide)
  have hcore : repairCandidate (w1 ++ ('{' :: mid ++ ['}']) ++ w2)
      = '{' :: mid ++ ['}'] := by
    unfold repairCandidate
    rw [stripFences_unfenced w1 mid w2 hw1 hw2, jsonCandidate_core _ _ _ hw1' hw2']
  have eshape : ('\n' :: ((w1 ++ ('{' :: mid ++ ['}']) ++ w2) ++ ['\n']))
      = ('\n' :: w1) ++ ('{' :: mid ++ ['}']) ++ (w2 ++ ['\n']) := by
    simp
  refine ⟨?_, ?_, hcore⟩
  · unfold repairCandidate
    rw [stripFences_fenceJson, eshape, jsonCandidate_core _ _ _ h1' h2']
    rw [stripFences_unfenced w1 mid w2 hw1 hw2, jsonCandidate_core _ _ _ hw1' hw2']
  · unfold repairCandidate
    rw [stripFences_fencePlain, eshape, jsonCandidate_core _ _ _ h1' h2']
    rw [stripFences_unfenced w1 mid w2 hw1 hw2, jsonCandidate_core _ _ _ hw1' hw2']

/-- Witness for C4 at a concrete JSON object body. -/
theorem c4_fence_transparent_witness :
    repairCandidate (fenceJson (([] : List Char)
        ++ ('{' :: "\"a\": 1".toList ++ ['}']) ++ ([] : List Char)))
      = repairCandidate (([] : List Char)
        ++ ('{' :: "\"a\": 1".toList ++ ['}']) ++ ([] : List Char))
    ∧ repairCandidate (([] : List Char)
        ++ ('{' :: "\"a\": 1".toList ++ ['}']) ++ ([] : List Char))
      = '{' :: "\"a\": 1".toList ++ ['}'] := by
  have h := c4_fence_transparent ([] : List Char) ("\"a\": 1".toList) ([] : List Char)
    (by intro c hc; cases hc) (by intro c hc; cases hc)
  exact ⟨h.1, h.2.2⟩

/-! ## Stage 2: the analyzer (`banktract_from_text`, lines 162-237) -/

/-- A JSON value as handed around by `json.loads`. -/
inductive JVal where
  | jnum (q : Rat)
  | jstr (s : List Char)
  | jarr (xs : List JVal)
  | jobj (fields : List (List Char × JVal))

/-- The empty-but-valid analyzer result returned by the short-text guard
(line 164); note it carries no `categories_amount` key. -/
def emptyGuardResult : JVal :=
  .jobj [("transactions".toList, .jarr []),
         ("analysis".toList, .jobj
           [("total_income".toList, .jnum 0),
            ("total_expense".toList, .jnum 0),
            ("net_amount".toList, .jnum 0),
            ("categories".toList, .jarr [])])]

/-- The empty-but-valid result substituted on any model or parse error
(line 237): the same totals plus an empty `categories_amount`. -/
def emptyErrorResult : JVal :=
  .jobj [("transactions".toList, .jarr []),
         ("analysis".toList, .jobj
           [("total_income".toList, .jnum 0),
            ("total_expense".toList, .jnum 0),
            ("net_amount".toList, .jnum 0),
            ("categories".toList, .jarr []),
            ("categories_amount".toList, .jobj [])])]

/-- Opening of the fixed instruction wrapped around the statement text at
lines 170-207.  The instruction wording is abridged here: it is data
consumed only by the opaque model oracle and never inspected by the code. -/
def promptHead : List Char :=
  ("\n    Analyze the following bank statement transaction data and extract the information in JSON format.\n    \n    Transaction data: \n    ").toList

/-- Closing of the fixed instruction of lines 170-207 (abridged likewise). -/
def promptTail : List Char :=
  ("\n    \n    Extract the transactions and return a JSON object with the required exact format, sign convention, date format and category rules.\n    ").toList

/-- The prompt f-string of lines 170-207. -/
def buildPrompt (t : List Char) : List Char :=
  promptHead ++ t ++ promptTail

/-- `banktract_from_text` (lines 162-237).  `model` is the Bedrock
invocation returning the text of the response's first content block
(`.error` covers a model or network exception); `jsonLoads` is Python's
`json.loads` (`.error` is a parse failure).  The code strips the model
text (line 219), strips fences and slices braces (lines 221-235), and
substitutes the empty default on any exception (line 237).  The returned
flag records whether the model was invoked. -/
def banktract_from_text (model : List Char → Except Unit (List Char))
    (jsonLoads : List Char → Except Unit JVal) (text : List Char) :
    JVal × Bool :=
  if text = [] ∨ (pyStrip text).length < 10 then (emptyGuardResult, false)
  else
    let t := if 30000 < text.length
      then text.take 30000 ++ "\n... (truncated)".toList else text
    match model (buildPrompt t) with
    | .error _ => (emptyErrorResult, true)
    | .ok raw =>
      match jsonLoads (repairCandidate (pyStrip raw)) with
      | .ok v => (v, true)
      | .error _ => (emptyErrorResult, true)

/-- C7: input that is empty or trims below 10 characters short-circuits to
the exact empty-but-valid result — transactions `[]`, zero totals, empty
categories and no `categories_amount` key — with no model invocation (and
hence no external call, the model being the only one in the function). -/
theorem c7_short_text_guard (model : List Char → Except Unit (List Char))
    (jsonLoads : List Char → Except Unit JVal) (text : List Char)
    (h : text = [] ∨ (pyStrip text).length < 10) :
    banktract_from_text model jsonLoads text = (emptyGuardResult, false) := by
  unfold banktract_from_text
  rw [if_pos h]

/-- Witness for C7 on the empty text and on a 2-character text. -/
theorem c7_short_text_guard_witness :
    banktract_from_text (fun _ => .error ()) (fun _ => .error ()) []
        = (emptyGuardResult, false)
    ∧ banktract_from_text (fun _ => .error ()) (fun _ => .error ())
        ("   hi   ".toList) = (emptyGuardResult, false) := by
  constructor
  · exact c7_short_text_guard _ _ _ (Or.inl rfl)
  · exact c7_short_text_guard _ _ _ (Or.inr (by decide))

/-! ## Stage 2 persistence (`save_analysis_to_database`, lines 239-296) -/

/-- A JSON scalar as it can appear in a field of a model-returned
transaction object. -/
inductive PyVal where
  | pstr (s : List Char)
  | pnum (q : Rat)
  | pnull
deriving DecidableEq, Repr

/-- Python truthiness for these values. -/
def pyTruthy : PyVal → Bool
  | .pstr s => decide (s ≠ [])
  | .pnum q => decide (q ≠ 0)
  | .pnull => false

/-- Model of Python `str()` on a field value (the pipeline only exercises
the string cases; numeric rendering is abstracted by `toString`). -/
def pyStr : PyVal → List Char
  | .pstr s => s
  | .pnum q => (toString q).toList
  | .pnull => "None".toList

/-- Numeric value of a digit run. -/
def digitsVal (ds : List Char) : Nat :=
  ds.foldl (fun a c => a * 10 + (c.toNat - 48)) 0

/-- Model of Python `float(str)`: surrounding whitespace, an optional
sign, then digits with at most one decimal point (exponent, inf and nan
forms are never produced on this path and are omitted).  `none` models
the `ValueError` caught at line 275. -/
def parseFloatStr (s : List Char) : Option Rat :=
  let t := pyStrip s
  let su : Int × List Char :=
    match t with
    | '-' :: r => (-1, r)
    | '+' :: r => (1, r)
    | r => (1, r)
  let ip := su.2.takeWhile (·.isDigit)
  match su.2.dropWhile (·.isDigit) with
  | [] => if ip = [] then none else some ((su.1 * digitsVal ip : Int) : Rat)
  | '.' :: frac =>
    if frac.all (·.isDigit) ∧ (ip ≠ [] ∨ frac ≠ []) then
      some ((su.1 : Rat) *
        ((digitsVal ip : Rat) + (digitsVal frac : Rat) / ((10 : Rat) ^ frac.length)))
    else none
  | _ => none

/-- Model of `float(x)` on a field value (line 274): numbers pass through,
strings are parsed, `None` raises the `TypeError` caught at line 275. -/
def pyFloat : PyVal → Option Rat
  | .pnum q => some q
  | .pstr s => parseFloatStr s
  | .pnull => none

/-- A calendar date as produced by `datetime.strptime(...).date()`. -/
structure PDate where
  year : Nat
  month : Nat
  day : Nat
deriving DecidableEq, Repr

/-- Split on a separator character (used to model strptime field
matching). -/
def splitChar (sep : Char) : List Char → List (List Char)
  | [] => [[]]
  | c :: cs =>
    if c = sep then [] :: splitChar sep cs
    else
      match splitChar sep cs with
      | [] => [[c]]
      | g :: gs => (c :: g) :: gs

/-- Model of one `datetime.strptime(s, fmt).date()` field triple: each
field is a non-empty digit run (year up to 4 digits, month and day up to
2, as strptime accepts) with month and day range-checked.  CPython
additionally rejects day numbers invalid for the specific month; every
date this development evaluates is valid in both. -/
def mkDate (ys ms ds : List Char) : Option PDate :=
  if ys ≠ [] ∧ ys.length ≤ 4 ∧ ys.all (·.isDigit)
      ∧ ms ≠ [] ∧ ms.length ≤ 2 ∧ ms.all (·.isDigit)
      ∧ ds ≠ [] ∧ ds.length ≤ 2 ∧ ds.all (·.isDigit)
      ∧ 1 ≤ digitsVal ms ∧ digitsVal ms ≤ 12
      ∧ 1 ≤ digitsVal ds ∧ digitsVal ds ≤ 31 then
    some ⟨digitsVal ys, digitsVal ms, digitsVal ds⟩
  else none

/-- `strptime` with a year-month-day format around `sep`. -/
def strptimeYMD (sep : Char) (s : List Char) : Option PDate :=
  match splitChar sep s with
  | [ys, ms, ds] => mkDate ys ms ds
  | _ => none

/-- `strptime` with a day-month-year format around `sep`. -/
def strptimeDMY (sep : Char) (s : List Char) : Option PDate :=
  match splitChar sep s with
  | [ds, ms, ys] => mkDate ys ms ds
  | _ => none

/-- `strptime` with a month-day-year format around `sep`. -/
def strptimeMDY (sep : Char) (s : List Char) : Option PDate :=
  match splitChar sep s with
  | [ms, ds, ys] => mkDate ys ms ds
  | _ => none

/-- The date-format cascade of lines 256-265: `%Y-%m-%d` first, then
`%d/%m/%Y`, `%m/%d/%Y`, `%Y/%m/%d`. -/
def parseDateFormats (s : List Char) : Option PDate :=
  (strptimeYMD '-' s).orElse fun _ =>
    (strptimeDMY '/' s).orElse fun _ =>
      (strptimeMDY '/' s).orElse fun _ =>
        strptimeYMD '/' s

/-- One element of the model's `transactions` array that is a JSON
object, with its four optional fields. -/
structure RawTx where
  date : Option PyVal := none
  description : Option PyVal := none
  amount : Option PyVal := none
  category : Option PyVal := none
deriving DecidableEq, Repr

/-- An element of the `transactions` array: a JSON object, or any
non-object JSON value — on which `trans.get` raises `AttributeError`. -/
inductive RawTrans where
  | dict (t : RawTx)
  | nonDict
deriving DecidableEq, Repr

/-- Whether the element is a JSON object. -/
def RawTrans.isDict : RawTrans → Bool
  | .dict _ => true
  | .nonDict => false

/-- One row inserted into the `transactions` table (lines 246-248, 281). -/
structure InsRow where
  transaction_date : PDate
  description : List Char
  amount : Rat
  category : List Char
deriving DecidableEq, Repr

/-- Lines 254-271: the `trans_date` computation.  A truthy string is
parsed through the format cascade, defaulting to `date.today()`; a falsy
or missing value takes `date.today()` directly; a truthy non-string value
is bound raw (line 269) and the INSERT then fails server-side — Postgres
rejects a non-date in the `transaction_date` column — modelled as `none`
(see `insertLoop` for the batch-level consequences of that failure). -/
def coerceDate (today : PDate) : Option PyVal → Option PDate
  | some v =>
    if pyTruthy v then
      match v with
      | .pstr s => some ((parseDateFormats s).getD today)
      | _ => none
    else some today
  | none => some today

/-- Line 274-276: `float(trans.get('amount', 0.0))` with the failure
defaulting to `0.0`. -/
def coerceAmount (v : Option PyVal) : Rat :=
  (pyFloat (v.getD (.pnum 0))).getD 0

/-- Line 278: `str(trans.get('description', ''))[:500]`. -/
def coerceDescription (v : Option PyVal) : List Char :=
  (pyStr (v.getD (.pstr []))).take 500

/-- Line 279: `str(trans.get('category', 'Other'))[:100]`. -/
def coerceCategory (v : Option PyVal) : List Char :=
  (pyStr (v.getD (.pstr ("Other".toList)))).take 100

/-- Lines 252-284, the per-transaction coercion: the row the INSERT at
line 281 binds for one element, or `none` when processing this element
raises — `AttributeError` at the first `trans.get` for a non-object
element, or the server-side rejection of a truthy non-string date (see
`coerceDate`).  The raise is caught by the `except: continue` at line
283, but its effect on the rest of the save is modelled by `insertLoop`
and `save_analysis_to_database`, not here. -/
def coerceTrans (today : PDate) : RawTrans → Option InsRow
  | .nonDict => none
  | .dict t =>
    match coerceDate today t.date with
    | none => none
    | some d =>
      some { transaction_date := d
             description := coerceDescription t.description
             amount := coerceAmount t.amount
             category := coerceCategory t.category }

/-- The insert loop of lines 251-284, threading the state of the open
pg8000 transaction (the code never enables autocommit, so every statement
of the save shares one server transaction).  `poisoned` becomes true at
the first server-rejected INSERT; from then on the server answers every
later INSERT with `current transaction is aborted`, so the
per-transaction handler skips all remaining insertions.  A non-object
element raises in Python before touching the database and so leaves both
the executed rows and the transaction state untouched.  The returned
rows are executed but uncommitted until line 291. -/
def insertLoop (today : PDate) : List RawTrans → Bool → List InsRow × Bool
  | [], poisoned => ([], poisoned)
  | .nonDict :: rest, poisoned => insertLoop today rest poisoned
  | .dict t :: rest, poisoned =>
    if poisoned then insertLoop today rest true
    else
      match coerceTrans today (.dict t) with
      | none => insertLoop today rest true
      | some r =>
        let rp := insertLoop today rest false
        (r :: rp.1, rp.2)

/-- The `if trans.get('category')` filter and `trans.get('category',
'Other')` map in the summary comprehension at line 287 (the default never
fires because the filter keeps only truthy values). -/
def truthyCategory : RawTrans → Option PyVal
  | .dict t =>
    match t.category with
    | some v => if pyTruthy v then some v else none
    | none => none
  | .nonDict => none

/-- The summary stored at lines 286-290: the model's `analysis` object —
kept abstract as `α` for the `{**summary, ...}` spread — with the two
overridden fields. -/
structure EnhancedSummary (α : Type) where
  base : α
  transaction_count : Nat
  categories : List PyVal

/-- What one successful `save_analysis_to_database` run leaves behind:
the committed rows, the stored summary, and the value returned at
line 293. -/
structure SaveOutcome (α : Type) where
  rows : List InsRow
  summary : EnhancedSummary α
  returned : Nat

/-- `save_analysis_to_database` (lines 239-296): the insert loop, then
the enhanced summary of lines 286-287, the UPDATE at line 289 and the
single commit at line 291.  `.error` models the rollback-and-re-raise of
lines 294-296, after which nothing is persisted; it fires in two cases.
If some element is not an object, the category comprehension at line 287
calls `trans.get` on it again, outside the per-transaction handler, and
the `AttributeError` escapes.  If some INSERT was rejected server-side,
the open transaction is aborted and the UPDATE at line 289 raises
`current transaction is aborted`.  Only when every element is an object
and every INSERT succeeded does the commit go through — and then no
transaction was skipped at all.  `list(set(...))` iterates in an
unspecified order; it is modelled by `List.dedup` and the claims use
only membership. -/
def save_analysis_to_database (α : Type) (today : PDate)
    (transactions : List RawTrans) (modelSummary : α) :
    Except Unit (SaveOutcome α) :=
  if transactions.all RawTrans.isDict then
    if (insertLoop today transactions false).2 then .error ()
    else
      .ok { rows := (insertLoop today transactions false).1
            summary := { base := modelSummary
                         transaction_count := transactions.length
                         categories := (transactions.filterMap truthyCategory).dedup }
            returned := transactions.length }
  else .error ()

theorem coerceTrans_dict (today : PDate) (t : RawTx) :
    coerceTrans today (.dict t)
      = match coerceDate today t.date with
        | none => none
        | some d =>
          some { transaction_date := d
                 description := coerceDescription t.description
                 amount := coerceAmount t.amount
                 category := coerceCategory t.category } := rfl

theorem coerceDate_none (today : PDate) : coerceDate today none = some today := rfl

theorem coerceDate_someStr (today : PDate) (s : List Char) :
    coerceDate today (some (.pstr s))
      = if pyTruthy (.pstr s) = true
        then some ((parseDateFormats s).getD today) else some today := rfl

theorem insertLoop_poisoned (today : PDate) (ts : List RawTrans) :
    insertLoop today ts true = ([], true) := by
  induction ts with
  | nil => rfl
  | cons tr rest ih =>
    cases tr with
    | nonDict => simpa [insertLoop] using ih
    | dict t => simpa [insertLoop] using ih

theorem insertLoop_snd_of_mem_rejected (today : PDate) (ts : List RawTrans)
    (t : RawTx) (hmem : RawTrans.dict t ∈ ts)
    (hrej : coerceTrans today (.dict t) = none) :
    ∀ p : Bool, (insertLoop today ts p).2 = true := by
  induction ts with
  | nil => cases hmem
  | cons tr rest ih =>
    intro p
    rcases List.mem_cons.mp hmem with heq | hmem2
    · rw [← heq]
      cases p with
      | true => simp [insertLoop, insertLoop_poisoned]
      | false => simp [insertLoop, hrej, insertLoop_poisoned]
    · cases tr with
      | nonDict =>
        simp only [insertLoop]
        exact ih hmem2 p
      | dict t2 =>
        cases p with
        | true => simp [insertLoop, insertLoop_poisoned]
        | false =>
          cases hc : coerceTrans today (.dict t2) with
          | none => simp [insertLoop, hc, insertLoop_poisoned]
          | some r =>
            simp only [insertLoop, hc]
            simpa using ih hmem2 false

theorem insertLoop_length_of_ok (today : PDate) (ts : List RawTrans)
    (hall : ts.all RawTrans.isDict = true)
    (hp : (insertLoop today ts false).2 = false) :
    (insertLoop today ts false).1.length = ts.length := by
  induction ts with
  | nil => rfl
  | cons tr rest ih =>
    cases tr with
    | nonDict => simp [RawTrans.isDict] at hall
    | dict t =>
      have hall2 : rest.all RawTrans.isDict = true := by
        simpa [RawTrans.isDict] using hall
      cases hc : coerceTrans today (.dict t) with
      | none =>
        rw [show insertLoop today (RawTrans.dict t :: rest) false
            = insertLoop today rest true from by simp [insertLoop, hc]] at hp
        rw [insertLoop_poisoned] at hp
        cases hp
      | some r =>
        have he : insertLoop today (RawTrans.dict t :: rest) false
            = (r :: (insertLoop today rest false).1,
                (insertLoop today rest false).2) := by
          simp [insertLoop, hc]
        rw [he] at hp ⊢
        simp only [List.length_cons]
        rw [ih hall2 hp]

/-- C6 counterexample: one bad transaction aborts the whole save, so the
claim's "never aborting the batch" is false on the code.  With a
non-object second element the insert loop skips it, but line 287's
comprehension calls `trans.get` on it again and the `AttributeError`
escapes; with a second element whose date is a truthy number its INSERT
aborts the open transaction and the UPDATE at line 289 raises.  In both
cases lines 294-296 roll back and re-raise: nothing is persisted, the
good first transaction included. -/
theorem c6_counterexample :
    save_analysis_to_database Unit ⟨2025, 1, 1⟩
      [RawTrans.dict ⟨some (.pstr ("2024-01-02".toList)),
          some (.pstr ("COFFEE".toList)), some (.pnum (-5)),
          some (.pstr ("food".toList))⟩, RawTrans.nonDict] () = .error ()
    ∧ save_analysis_to_database Unit ⟨2025, 1, 1⟩
      [RawTrans.dict ⟨some (.pstr ("2024-01-02".toList)),
          some (.pstr ("COFFEE".toList)), some (.pnum (-5)),
          some (.pstr ("food".toList))⟩,
       RawTrans.dict ⟨some (.pnum 20240102), some (.pstr ("UNKNOWN".toList)),
          some (.pnum 7), some (.pstr ("transport".toList))⟩] () = .error () := by
  constructor
  · rfl
  · rfl

/-- C6 amended: field coercion is independent and non-fatal per field —
(a) an amount string failing numeric coercion gives amount 0.0 on a row
still bound for insertion; (b) an object element whose date is a string
or missing always yields a row; (c) a missing category defaults to
"Other"; (d) descriptions are truncated to 500 characters and categories
to 100; (e) a date string matching no accepted format defaults to the
current date; and the per-transaction handler does let the loop continue
past a failing element — (f) a non-object element leaves the loop's
inserts and transaction state exactly as if it were absent — but the
skip does not leave the batch intact: (g) a non-object element anywhere
makes the whole save roll back and persist nothing, and (h) so does a
server-rejected INSERT (truthy non-string date). -/
theorem c6_amended (today : PDate) :
    (∀ (t : RawTx) (s : List Char) (r : InsRow), t.amount = some (.pstr s) →
        parseFloatStr s = none → coerceTrans today (.dict t) = some r →
        r.amount = 0)
    ∧ (∀ t : RawTx, (t.date = none ∨ ∃ s, t.date = some (.pstr s)) →
        (coerceTrans today (.dict t)).isSome = true)
    ∧ (∀ (t : RawTx) (r : InsRow), t.category = none →
        coerceTrans today (.dict t) = some r → r.category = "Other".toList)
    ∧ (∀ (t : RawTx) (r : InsRow), coerceTrans today (.dict t) = some r →
        r.description.length ≤ 500 ∧ r.category.length ≤ 100)
    ∧ (∀ (t : RawTx) (s : List Char) (r : InsRow), t.date = some (.pstr s) →
        parseDateFormats s = none → coerceTrans today (.dict t) = some r →
        r.transaction_date = today)
    ∧ (∀ (pre post : List RawTrans) (p : Bool),
        insertLoop today (pre ++ RawTrans.nonDict :: post) p
          = insertLoop today (pre ++ post) p)
    ∧ (∀ (α : Type) (s : α) (ts : List RawTrans), RawTrans.nonDict ∈ ts →
        save_analysis_to_database α today ts s = .error ())
    ∧ (∀ (α : Type) (s : α) (ts : List RawTrans) (t : RawTx),
        RawTrans.dict t ∈ ts → coerceTrans today (.dict t) = none →
        save_analysis_to_database α today ts s = .error ()) := by
  have hrow : ∀ (t : RawTx) (r : InsRow), coerceTrans today (.dict t) = some r →
      ∃ d, coerceDate today t.date = some d
        ∧ r = { transaction_date := d
                description := coerceDescription t.description
                amount := coerceAmount t.amount
                category := coerceCategory t.category } := by
    intro t r hr
    rw [coerceTrans_dict] at hr
    cases hcd : coerceDate today t.date with
    | none =>
      rw [hcd] at hr
      exact Option.noConfusion hr
    | some d =>
      rw [hcd] at hr
      exact ⟨d, rfl, (Option.some.inj hr).symm⟩
  refine ⟨?_, ?_, ?_, ?_, ?_, ?_, ?_, ?_⟩
  · intro t s r hamt hparse hr
    obtain ⟨d, _, rfl⟩ := hrow t r hr
    simp [coerceAmount, hamt, pyFloat, hparse]
  · intro t hd
    have hcd : ∃ d, coerceDate today t.date = some d := by
      rcases hd with h | ⟨s, h⟩
      · rw [h, coerceDate_none]
        exact ⟨today, rfl⟩
      · rw [h, coerceDate_someStr]
        by_cases hs : pyTruthy (.pstr s) = true
        · rw [if_pos hs]
          exact ⟨(parseDateFormats s).getD today, rfl⟩
        · rw [if_neg hs]
          exact ⟨today, rfl⟩
    obtain ⟨d, hcd⟩ := hcd
    rw [coerceTrans_dict, hcd]
    rfl
  · intro t r hcat hr
    obtain ⟨d, _, rfl⟩ := hrow t r hr
    simp [coerceCategory, hcat, pyStr]
  · intro t r hr
    obtain ⟨d, _, rfl⟩ := hrow t r hr
    constructor
    · simp [coerceDescription]
    · simp [coerceCategory]
  · intro t s r hdate hparse hr
    obtain ⟨d, hcd, rfl⟩ := hrow t r hr
    rw [hdate, coerceDate_someStr] at hcd
    by_cases hs : pyTruthy (.pstr s) = true
    · rw [if_pos hs] at hcd
      simp only [hparse, Option.getD_none] at hcd
      show d = today
      exact (Option.some.inj hcd).symm
    · rw [if_neg hs] at hcd
      show d = today
      exact (Option.some.inj hcd).symm
  · intro pre post p
    induction pre generalizing p with
    | nil => rfl
    | cons x pre2 ih =>
      cases x with
      | nonDict =>
        simp only [List.cons_append, insertLoop]
        exact ih p
      | dict t =>
        cases p with
        | true =>
          simp only [List.cons_append, insertLoop, if_true]
          exact ih true
        | false =>
          cases hc : coerceTrans today (.dict t) with
          | none =>
            simp only [List.cons_append, insertLoop, hc]
            exact ih true
          | some r =>
            simp only [List.cons_append, insertLoop, hc, Bool.false_eq_true,
              if_false, List.append_eq]
            rw [ih false]
  · intro α s ts hmem
    unfold save_analysis_to_database
    rw [if_neg]
    intro hall
    exact absurd (List.all_eq_true.mp hall RawTrans.nonDict hmem) (by decide)
  · intro α s ts t hmem hrej
    by_cases hall : ts.all RawTrans.isDict = true
    · have hp := insertLoop_snd_of_mem_rejected today ts t hmem hrej false
      simp [save_analysis_to_database, hall, hp]
    · simp [save_analysis_to_database, hall]

/-- Witness for C6 amended: the spec's own scenario — amount `"abc"`,
category absent — is coerced to amount 0.0 with category "Other"; a date
string matching no format yields the current date; the loop treats a
non-object element as absent; and both a non-object element and a
number-dated object abort a concrete save entirely. -/
theorem c6_amended_witness :
    (∃ r : InsRow,
      coerceTrans ⟨2025, 1, 1⟩ (.dict ⟨none, some (.pstr ("x".toList)),
          some (.pstr ("abc".toList)), none⟩) = some r
      ∧ r.amount = 0 ∧ r.category = "Other".toList
      ∧ r.description.length ≤ 500)
    ∧ (∃ r2 : InsRow,
      coerceTrans ⟨2025, 1, 1⟩ (.dict ⟨some (.pstr ("garbage".toList)),
          none, none, none⟩) = some r2
      ∧ r2.transaction_date = ⟨2025, 1, 1⟩)
    ∧ insertLoop ⟨2025, 1, 1⟩
        ([RawTrans.dict ⟨none, none, none, none⟩] ++ RawTrans.nonDict
          :: [RawTrans.dict ⟨none, none, none, none⟩]) false
      = insertLoop ⟨2025, 1, 1⟩
        ([RawTrans.dict ⟨none, none, none, none⟩]
          ++ [RawTrans.dict ⟨none, none, none, none⟩]) false
    ∧ save_analysis_to_database Unit ⟨2025, 1, 1⟩ [RawTrans.nonDict] ()
        = .error ()
    ∧ save_analysis_to_database Unit ⟨2025, 1, 1⟩
        [RawTrans.dict ⟨some (.pnum 1), none, none, none⟩] () = .error () := by
  have h := c6_amended ⟨2025, 1, 1⟩
  refine ⟨?_, ?_, ?_, ?_, ?_⟩
  · have hsome := h.2.1 ⟨none, some (.pstr ("x".toList)),
      some (.pstr ("abc".toList)), none⟩ (Or.inl rfl)
    obtain ⟨r, hr⟩ := Option.isSome_iff_exists.mp hsome
    refine ⟨r, hr, ?_, ?_, ?_⟩
    · exact h.1 _ ("abc".toList) r rfl (by decide) hr
    · exact h.2.2.1 _ r rfl hr
    · exact (h.2.2.2.1 _ r hr).1
  · have hsome := h.2.1 ⟨some (.pstr ("garbage".toList)), none, none, none⟩
      (Or.inr ⟨"garbage".toList, rfl⟩)
    obtain ⟨r2, hr2⟩ := Option.isSome_iff_exists.mp hsome
    refine ⟨r2, hr2, ?_⟩
    exact h.2.2.2.2.1 _ ("garbage".toList) r2 rfl (by decide) hr2
  · exact h.2.2.2.2.2.1 [RawTrans.dict ⟨none, none, none, none⟩]
      [RawTrans.dict ⟨none, none, none, none⟩] false
  · exact h.2.2.2.2.2.2.1 Unit () [RawTrans.nonDict] (by decide)
  · exact h.2.2.2.2.2.2.2 Unit ()
      [RawTrans.dict ⟨some (.pnum 1), none, none, none⟩]
      ⟨some (.pnum 1), none, none, none⟩ (by decide) (by decide)

/-- C1 counterexample: a single model transaction with no category field.
Every INSERT succeeds, the save commits, and the one committed row has
category "Other" (the coercion default of line 279) — yet the persisted
summary's `categories` list is empty, because line 287 collects the
truthy raw category values of the model list and its filter drops the
missing field.  The stored categories are therefore not the distinct
categories of the inserted rows, refuting the claim as stated. -/
theorem c1_counterexample :
    ∃ out : SaveOutcome Unit,
      save_analysis_to_database Unit ⟨2025, 6, 1⟩
        [RawTrans.dict ⟨some (.pstr ("2024-01-02".toList)),
            some (.pstr ("COFFEE".toList)), some (.pnum (-5)), none⟩] ()
        = .ok out
      ∧ out.rows.map (fun r => r.category) = ["Other".toList]
      ∧ out.summary.categories = []
      ∧ out.summary.transaction_count = 1 := by
  refine ⟨_, rfl, ?_, ?_, ?_⟩ <;> decide

/-- C1 amended: whenever a summary is persisted at all, every
model-returned transaction was inserted — any skipped transaction aborts
the whole save before the commit — so the stored `transaction_count`
equals the number of committed rows (both equal the model list's
length); and the stored `categories` are exactly the truthy raw category
values of the model list (untruncated and without the "Other" default),
not a recomputation from the inserted rows. -/
theorem c1_amended (α : Type) (today : PDate) (ts : List RawTrans)
    (s : α) (out : SaveOutcome α)
    (h : save_analysis_to_database α today ts s = .ok out) :
    out.summary.transaction_count = out.rows.length
    ∧ out.rows.length = ts.length
    ∧ (∀ v : PyVal, v ∈ out.summary.categories
        ↔ ∃ tr ∈ ts, truthyCategory tr = some v) := by
  unfold save_analysis_to_database at h
  by_cases hall : ts.all RawTrans.isDict = true
  · rw [if_pos hall] at h
    by_cases hp : (insertLoop today ts false).2 = true
    · rw [if_pos hp] at h
      exact Except.noConfusion h
    · rw [if_neg hp] at h
      obtain rfl := (Except.ok.inj h).symm
      have hpf : (insertLoop today ts false).2 = false := by
        cases hx : (insertLoop today ts false).2
        · rfl
        · exact absurd hx hp
      have hlen := insertLoop_length_of_ok today ts hall hpf
      refine ⟨hlen.symm, hlen, ?_⟩
      intro v
      simp [List.mem_dedup, List.mem_filterMap]
  · rw [if_neg hall] at h
    exact Except.noConfusion h

/-- Witness for C1 amended at a one-transaction input whose save
commits: count equals the committed rows and the stored categories hold
exactly the model's truthy category value. -/
theorem c1_amended_witness :
    ∃ out : SaveOutcome Unit,
      save_analysis_to_database Unit ⟨2025, 6, 1⟩
        [RawTrans.dict ⟨none, none, none, some (.pstr ("food".toList))⟩] ()
        = .ok out
      ∧ out.summary.transaction_count = out.rows.length
      ∧ out.rows.length = 1
      ∧ PyVal.pstr ("food".toList) ∈ out.summary.categories := by
  have h := c1_amended Unit ⟨2025, 6, 1⟩
    [RawTrans.dict ⟨none, none, none, some (.pstr ("food".toList))⟩] () _ rfl
  refine ⟨_, rfl, h.1, h.2.1, ?_⟩
  exact (h.2.2 (PyVal.pstr ("food".toList))).mpr
    ⟨RawTrans.dict ⟨none, none, none, some (.pstr ("food".toList))⟩,
      by decide, by decide⟩

/-! ## Stage 3: the dashboard renderer (visualize lambda_function.py) -/

/-- One `bank_statements` row as selected by the dashboard queries:
id, owner, `analysis_summary` (NULL or a JSON text whose content the
gathering code does not inspect), and `created_at` as a timestamp tick. -/
structure StmtRow where
  statement_id : Nat
  user_id : List Char
  analysis_summary : Option (List Char)
  created_at : Nat
deriving DecidableEq, Repr

/-- The first SELECT of `create_dashboard_html` (lines 104-109):
`WHERE statement_id = %s AND analysis_summary IS NOT NULL`, `fetchone`. -/
def row_find (db : List StmtRow) (sid : Nat) : Option StmtRow :=
  db.find? fun r => decide (r.statement_id = sid) && r.analysis_summary.isSome

/-- The `ORDER BY created_at DESC` ordering. -/
def newerFirst (a b : StmtRow) : Prop :=
  b.created_at ≤ a.created_at

instance : DecidableRel newerFirst :=
  fun a b => Nat.decLe b.created_at a.created_at

instance : IsTotal StmtRow newerFirst :=
  ⟨fun a b => (Nat.le_total b.created_at a.created_at).imp id id⟩

instance : IsTrans StmtRow newerFirst :=
  ⟨fun _ _ _ h1 h2 => Nat.le_trans h2 h1⟩

/-- The second SELECT (lines 117-123): the same owner's other analyzable
statements, `ORDER BY created_at DESC LIMIT 5`.  Postgres leaves the order
of equal timestamps unspecified; the model uses a stable insertion sort
over the table order, and concrete inputs below use distinct timestamps. -/
def selectOthers (db : List StmtRow) (sid : Nat) (uid : List Char) : List StmtRow :=
  (List.insertionSort newerFirst
    (db.filter fun r => decide (r.user_id = uid) && r.analysis_summary.isSome
      && decide (r.statement_id ≠ sid))).take 5

/-- The statement list built at lines 109-128 and handed to
`generate_dashboard_html`: the current statement first, then the whole
LIMIT-5 query result. -/
def dashboardStatements (db : List StmtRow) (sid : Nat) : Option (List StmtRow) :=
  (row_find db sid).map fun cur => cur :: selectOthers db sid cur.user_id

/-- The static fallback document returned by `generate_default_dashboard`
(lines 614-633), verbatim. -/
def generate_default_dashboard : List Char :=
  ("\n<!DOCTYPE html>\n<html lang=\"en\">\n<head>\n    <meta charset=\"UTF-8\">\n    <meta name=\"viewport\" content=\"width=device-width, initial-scale=1.0\">\n    <title>Bank Statement Dashboard</title>\n    <style>\n        body \x7b font-family: Arial, sans-serif; text-align: center; padding: 50px; \x7d\n        .error \x7b color: #e74c3c; \x7d\n    </style>\n</head>\n<body>\n    <h1>📊 Bank Statement Dashboard</h1>\n    <p class=\"error\">Unable to load data. Please try again later.</p>\n</body>\n</html>\n").toList

/-- `create_dashboard_html` (lines 95-138).  `db` is the result of the
two SELECTs (`.error` is a pg8000 exception), `render` stands for
`generate_dashboard_html` (`.error` is an exception while rendering,
e.g. a non-numeric summary field reaching `float()` at line 248).  Every
such error lands in the `except` branch returning the default document,
and a missing or NULL-summary target statement returns it at line 113. -/
def create_dashboard_html (render : List StmtRow → Except Unit (List Char))
    (db : Except Unit (List StmtRow)) (sid : Nat) : List Char :=
  match db with
  | .error _ => generate_default_dashboard
  | .ok rows =>
    match row_find rows sid with
    | none => generate_default_dashboard
    | some cur =>
      match render (cur :: selectOthers rows sid cur.user_id) with
      | .ok html => html
      | .error _ => generate_default_dashboard

/-- `os.path.basename`: the part after the last '/'. -/
def osp_basename (p : List Char) : List Char :=
  match rfindChar '/' p with
  | some i => p.drop (i + 1)
  | none => p

/-- The base part of `os.path.splitext`: split at the last dot unless
every character before it is a dot. -/
def splitextBase (p : List Char) : List Char :=
  match rfindChar '.' p with
  | some i => if (p.take i).all (· = '.') then p else p.take i
  | none => p

/-- `build_dashboard_key` (lines 154-164).  The timestamp extracted at
line 162 is computed but unused in the returned key and omitted here.
Note the literal "dashboard/" prefix written by line 164. -/
def build_dashboard_key (user_id source_key : List Char) : List Char :=
  let filename := osp_basename source_key
  let base0 := splitextBase filename
  let base := if base0 = [] then "statement".toList else base0
  "dashboard/".toList ++ user_id ++ "/".toList ++ base ++ ".html".toList

/-- The output key as the spec's words prescribe it, for comparison with
`build_dashboard_key`:
"`{owner_id}/{basename-of-source-key-without-extension}.html`, default
base \"statement\" if the source key's basename has no stem". -/
def spec_dashboard_key (user_id source_key : List Char) : List Char :=
  let base0 := splitextBase (osp_basename source_key)
  let base := if base0 = [] then "statement".toList else base0
  user_id ++ "/".toList ++ base ++ ".html".toList

/-- `upload_dashboard_to_s3` (lines 635-651): the outcome of
`put_object` is caught and swallowed — the function returns `None`
whether the upload succeeded or raised. -/
def upload_dashboard_to_s3 (putOutcome : Except (List Char) Unit) : Unit :=
  match putOutcome with
  | .ok _ => ()
  | .error _ => ()

/-- `get_dashboard_url` (lines 653-665): the presigned URL, or the
regional fallback URL when presigning raises. -/
def get_dashboard_url (presign : Except Unit (List Char))
    (bucket key region : List Char) : List Char :=
  match presign with
  | .ok u => u
  | .error _ =>
    "https://".toList ++ bucket ++ ".s3.".toList ++ region
      ++ ".amazonaws.com/".toList ++ key

/-- The JSON bodies a visualize handler response can carry. -/
inductive RespBody where
  | errorMissingStatementId
  | errorFailedHtml
  | errorNotFound
  | errorUnsupported
  | errorCaught
  | success (url key user : List Char) (sid : Nat)
deriving DecidableEq, Repr

/-- A numeric status code plus body, as returned by every branch. -/
structure LambdaResponse where
  statusCode : Nat
  body : RespBody
deriving DecidableEq, Repr

/-- The two fields the visualize handler reads from its event. -/
structure VEvent where
  trigger_source : Option (List Char)
  statement_id : Option Nat

/-- The visualize `lambda_handler` (lines 16-93).  `lookupStmt` is the
user/key SELECT of lines 40-49 (`.error` is a pg8000 exception reaching
the outer `except` and its 500 response); `putOutcome` feeds
`upload_dashboard_to_s3`; `presign` feeds `get_dashboard_url`.  A falsy
`statement_id` (absent or 0) yields the 400 response of lines 23-27. -/
def visualize_lambda_handler (render : List StmtRow → Except Unit (List Char))
    (db : Except Unit (List StmtRow))
    (lookupStmt : Except Unit (Option (List Char × List Char)))
    (putOutcome : Except (List Char) Unit) (presign : Except Unit (List Char))
    (bucket region : List Char) (event : VEvent) : LambdaResponse :=
  if event.trigger_source = some ("bank_extract".toList) then
    match event.statement_id with
    | none => ⟨400, .errorMissingStatementId⟩
    | some sid =>
      if sid = 0 then ⟨400, .errorMissingStatementId⟩
      else
        if create_dashboard_html render db sid = [] then ⟨500, .errorFailedHtml⟩
        else
          match lookupStmt with
          | .error _ => ⟨500, .errorCaught⟩
          | .ok none => ⟨404, .errorNotFound⟩
          | .ok (some (uid, s3key)) =>
            let key := build_dashboard_key uid s3key
            let _ := upload_dashboard_to_s3 putOutcome
            ⟨200, .success (get_dashboard_url presign bucket key region) key uid sid⟩
  else ⟨400, .errorUnsupported⟩

/-- C3 counterexample: an owner with five other analyzable statements.
The aggregation list contains the current statement plus all five others —
six statements — not the five total (current plus four) the claim states:
the LIMIT of the second query is 5, not 4. -/
theorem c3_counterexample :
    (dashboardStatements
      [⟨10, "u".toList, some ("s".toList), 100⟩,
       ⟨1, "u".toList, some ("s".toList), 10⟩,
       ⟨2, "u".toList, some ("s".toList), 20⟩,
       ⟨3, "u".toList, some ("s".toList), 30⟩,
       ⟨4, "u".toList, some ("s".toList), 40⟩,
       ⟨5, "u".toList, some ("s".toList), 50⟩] 10).map List.length
      = some 6 := by
  decide

/-- C3 amended: the aggregated set is the target statement's summary plus
the (up to) 5 most recent other analyzable summaries of the same owner —
up to 6 statements in total — with the current statement first regardless
of its timestamp rank and the others newest first: every other row kept is
of the same owner, analyzable and distinct from the target, they are
sorted newest-first, exactly `min 5 matches` of them are kept, and every
matching row left out is no newer than any row kept. -/
theorem c3_amended (db : List StmtRow) (sid : Nat) (cur : StmtRow)
    (h : row_find db sid = some cur) :
    ∃ others : List StmtRow,
      dashboardStatements db sid = some (cur :: others)
      ∧ others.length = min 5 (db.filter fun r =>
          decide (r.user_id = cur.user_id) && r.analysis_summary.isSome
            && decide (r.statement_id ≠ sid)).length
      ∧ List.Sorted newerFirst others
      ∧ (∀ r ∈ others, r.user_id = cur.user_id
          ∧ r.analysis_summary.isSome = true ∧ r.statement_id ≠ sid)
      ∧ (∀ r ∈ db, r.user_id = cur.user_id → r.analysis_summary.isSome = true →
          r.statement_id ≠ sid → r ∉ others →
          ∀ x ∈ others, r.created_at ≤ x.created_at) := by
  refine ⟨selectOthers db sid cur.user_id, ?_, ?_, ?_, ?_, ?_⟩
  · unfold dashboardStatements
    rw [h]
    rfl
  · unfold selectOthers
    rw [List.length_take, List.length_insertionSort]
  · unfold selectOthers
    exact (List.sorted_insertionSort newerFirst _).sublist (List.take_sublist 5 _)
  · intro r hr
    have hmem : r ∈ List.insertionSort newerFirst
        (db.filter fun r => decide (r.user_id = cur.user_id)
          && r.analysis_summary.isSome && decide (r.statement_id ≠ sid)) :=
      (List.take_sublist 5 _).mem hr
    have hf := (List.mem_filter.mp ((List.mem_insertionSort _).mp hmem)).2
    simp only [Bool.and_eq_true, decide_eq_true_eq] at hf
    exact ⟨hf.1.1, hf.1.2, hf.2⟩
  · intro r hrdb hu hsumm hne hnot x hx
    have hrf : r ∈ db.filter fun r => decide (r.user_id = cur.user_id)
        && r.analysis_summary.isSome && decide (r.statement_id ≠ sid) := by
      rw [List.mem_filter]
      refine ⟨hrdb, ?_⟩
      simp [hu, hsumm, hne]
    have hrs : r ∈ List.insertionSort newerFirst
        (db.filter fun r => decide (r.user_id = cur.user_id)
          && r.analysis_summary.isSome && decide (r.statement_id ≠ sid)) :=
      (List.mem_insertionSort _).mpr hrf
    set sorted := List.insertionSort newerFirst
      (db.filter fun r => decide (r.user_id = cur.user_id)
        && r.analysis_summary.isSome && decide (r.statement_id ≠ sid)) with hsorted
    have hsplit : sorted = sorted.take 5 ++ sorted.drop 5 :=
      (List.take_append_drop 5 sorted).symm
    have hpair : List.Pairwise newerFirst (sorted.take 5 ++ sorted.drop 5) := by
      rw [← hsplit]
      exact List.sorted_insertionSort newerFirst _
    have hdrop : r ∈ sorted.drop 5 := by
      rw [hsplit] at hrs
      rcases List.mem_append.mp hrs with hm | hm
      · exact absurd hm hnot
      · exact hm
    have := (List.pairwise_append.mp hpair).2.2 x hx r hdrop
    exact this

/-- Witness for C3 amended: an owner with a single other statement keeps
exactly that one after the current. -/
theorem c3_amended_witness :
    ∃ others : List StmtRow,
      dashboardStatements
        [⟨10, "u".toList, some ("s".toList), 100⟩,
         ⟨1, "u".toList, some ("s".toList), 10⟩] 10
        = some (⟨10, "u".toList, some ("s".toList), 100⟩ :: others)
      ∧ others.length = 1 := by
  obtain ⟨others, h1, h2, _, _, _⟩ := c3_amended
    [⟨10, "u".toList, some ("s".toList), 100⟩,
     ⟨1, "u".toList, some ("s".toList), 10⟩] 10
    ⟨10, "u".toList, some ("s".toList), 100⟩ (by decide)
  refine ⟨others, h1, ?_⟩
  rw [h2]
  decide

/-- C8: dashboard generation is total and falls back to the static error
document on a database error, on a target statement with no analyzable
summary (which covers an owner with zero analyzable summaries), and on a
rendering error; in any remaining case the output is a successful render.
It therefore never propagates an exception to its caller. -/
theorem c8_render_never_raises
    (render : List StmtRow → Except Unit (List Char))
    (db : Except Unit (List StmtRow)) (sid : Nat) :
    (∀ e, db = .error e →
        create_dashboard_html render db sid = generate_default_dashboard)
    ∧ (∀ rows, db = .ok rows → row_find rows sid = none →
        create_dashboard_html render db sid = generate_default_dashboard)
    ∧ (∀ rows cur e, db = .ok rows → row_find rows sid = some cur →
        render (cur :: selectOthers rows sid cur.user_id) = .error e →
        create_dashboard_html render db sid = generate_default_dashboard)
    ∧ (create_dashboard_html render db sid = generate_default_dashboard
        ∨ ∃ stmts html, render stmts = .ok html
            ∧ create_dashboard_html render db sid = html) := by
  have hok : ∀ rows, create_dashboard_html render (.ok rows) sid
      = match row_find rows sid with
        | none => generate_default_dashboard
        | some cur =>
          match render (cur :: selectOthers rows sid cur.user_id) with
          | .ok html => html
          | .error _ => generate_default_dashboard := fun _ => rfl
  refine ⟨?_, ?_, ?_, ?_⟩
  · intro e he
    rw [he]
    rfl
  · intro rows he hrf
    rw [he]
    simp only [hok, hrf]
  · intro rows cur e he hrf hrender
    rw [he]
    simp only [hok, hrf, hrender]
  · cases db with
    | error e => exact Or.inl rfl
    | ok rows =>
      cases hrf : row_find rows sid with
      | none =>
        refine Or.inl ?_
        simp only [hok, hrf]
      | some cur =>
        cases hrender : render (cur :: selectOthers rows sid cur.user_id) with
        | error e =>
          refine Or.inl ?_
          simp only [hok, hrf, hrender]
        | ok html =>
          refine Or.inr ⟨_, html, hrender, ?_⟩
          simp only [hok, hrf, hrender]

/-- Witness for C8: a database error, and an owner whose only statement
has a NULL summary (zero analyzable summaries), both yield the default
document. -/
theorem c8_render_never_raises_witness :
    create_dashboard_html (fun _ => .ok ("h".toList)) (.error ()) 1
        = generate_default_dashboard
    ∧ create_dashboard_html (fun _ => .ok ("h".toList))
        (.ok [⟨1, "u".toList, none, 5⟩]) 1 = generate_default_dashboard := by
  constructor
  · exact (c8_render_never_raises (fun _ => .ok ("h".toList)) (.error ()) 1).1 () rfl
  · exact (c8_render_never_raises (fun _ => .ok ("h".toList))
      (.ok [⟨1, "u".toList, none, 5⟩]) 1).2.1 _ rfl (by decide)

/-- C9 counterexample: the produced key carries a "dashboard/" prefix the
claim omits — it is not `{owner_id}/{basename-without-extension}.html`. -/
theorem c9_counterexample :
    build_dashboard_key ("u1".toList)
        ("statements/u1/bs-20250917191200-abcd1234.pdf".toList)
      ≠ spec_dashboard_key ("u1".toList)
        ("statements/u1/bs-20250917191200-abcd1234.pdf".toList)
    ∧ build_dashboard_key ("u1".toList)
        ("statements/u1/bs-20250917191200-abcd1234.pdf".toList)
      = "dashboard/u1/bs-20250917191200-abcd1234.html".toList := by
  constructor
  · decide
  · decide

/-- C9 amended: the artifact key is the spec's derivation
(`{owner_id}/{stem-or-"statement"}.html`) prefixed by the literal
"dashboard/" segment; the key is a pure function of owner and source key,
so re-running stage 3 for the same source statement writes (and
overwrites) the same object. -/
theorem c9_amended (user_id source_key : List Char) :
    build_dashboard_key user_id source_key
      = "dashboard/".toList ++ spec_dashboard_key user_id source_key := by
  unfold build_dashboard_key spec_dashboard_key
  simp [List.append_assoc]

/-- C10: for a valid trigger whose statement id resolves, the handler's
response does not depend on the upload outcome at all, and with a failing
S3 put it still answers 200 with the success body — upload failure is
indistinguishable from success, because `upload_dashboard_to_s3` swallows
every exception and returns nothing. -/
theorem c10_upload_failure_invisible
    (render : List StmtRow → Except Unit (List Char))
    (db : Except Unit (List StmtRow)) (presign : Except Unit (List Char))
    (bucket region uid s3key : List Char) (sid : Nat)
    (hsid : sid ≠ 0)
    (hhtml : create_dashboard_html render db sid ≠ [])
    (p1 p2 : Except (List Char) Unit) :
    visualize_lambda_handler render db (.ok (some (uid, s3key))) p1 presign
        bucket region ⟨some ("bank_extract".toList), some sid⟩
      = visualize_lambda_handler render db (.ok (some (uid, s3key))) p2 presign
        bucket region ⟨some ("bank_extract".toList), some sid⟩
    ∧ visualize_lambda_handler render db (.ok (some (uid, s3key)))
        (.error ("S3 unavailable".toList)) presign bucket region
        ⟨some ("bank_extract".toList), some sid⟩
      = ⟨200, .success
            (get_dashboard_url presign bucket (build_dashboard_key uid s3key) region)
            (build_dashboard_key uid s3key) uid sid⟩ := by
  constructor
  · unfold visualize_lambda_handler
    simp [hsid, hhtml]
  · unfold visualize_lambda_handler
    simp [hsid, hhtml]

/-- Witness for C10 at a concrete event whose db lookup resolves and whose
upload fails. -/
theorem c10_upload_failure_invisible_witness :
    visualize_lambda_handler (fun _ => .ok ("h".toList)) (.error ())
        (.ok (some ("u1".toList, "statements/u1/a.pdf".toList)))
        (.error ("S3 unavailable".toList)) (.ok ("url".toList))
        ("bkt".toList) ("ap-southeast-1".toList)
        ⟨some ("bank_extract".toList), some 7⟩
      = ⟨200, .success
            (get_dashboard_url (.ok ("url".toList)) ("bkt".toList)
              (build_dashboard_key ("u1".toList) ("statements/u1/a.pdf".toList))
              ("ap-southeast-1".toList))
            (build_dashboard_key ("u1".toList) ("statements/u1/a.pdf".toList))
            ("u1".toList) 7⟩ := by
  exact (c10_upload_failure_invisible (fun _ => .ok ("h".toList)) (.error ())
    (.ok ("url".toList)) ("bkt".toList) ("ap-southeast-1".toList)
    ("u1".toList) ("statements/u1/a.pdf".toList) 7 (by decide) (by decide)
    (.error ("S3 unavailable".toList)) (.ok ())).2
